import Mathlib

/-!
Verification of the WMS tax engine (`tax_engine.py`) against its
natural-language specification.

The embedding models the Python source shallowly:
  - Python floats are modelled as `Rat` (exact arithmetic).
  - Python exceptions are modelled by `Except PyErr`; the bodies of the
    `try:` blocks become `Except`-valued functions and the `except`
    handlers become an explicit catch that maps every error to `0.0`,
    exactly as `CompensationCessEngine.calculate_cess` does.
  - A rule record loaded from `cess_rules.json` is modelled as a record of
    optional fields; a missing dictionary key raises `KeyError`, an
    arithmetic operation on `None` raises `TypeError`, and division by
    zero raises `ZeroDivisionError`, matching Python semantics.
  - The bounded Python call stack is modelled by a `fuel : Nat` argument:
    entering a recursive call with no fuel left raises `RecursionError`,
    which the `except` handler of the caller turns into `0.0`.
  - `round(x, 2)` is modelled as round-half-to-even at two decimal
    digits over `Rat`.
-/

namespace TaxEngine

/-- PyErr enumerates the Python exception classes the engine can raise
internally: `KeyError` (missing dict key), `TypeError` (arithmetic on
`None`), `ZeroDivisionError`, and `RecursionError` (stack exhaustion). -/
inductive PyErr where
  | keyError
  | typeError
  | zeroDivisionError
  | recursionError
deriving DecidableEq

/-- CessRule models one record of `cess_rules.json`: a JSON object whose
keys may each be absent. `rtype` is `rule.get` applied to the key `type`; the numeric
fields correspond to the keys `rate_percent`, `unit_count`, `fixed_rate`
and `rate_per_tonne`; `options` is the list of sub-records under the
`options` key of a `higher_of` rule. -/
inductive CessRule where
  | mk (rtype : Option String) (rate_percent : Option Rat) (unit_count : Option Rat)
      (fixed_rate : Option Rat) (rate_per_tonne : Option Rat)
      (options : Option (List CessRule)) : CessRule

/-- Field accessor corresponding to `rule.get` applied to the key `type`. -/
def CessRule.rtype : CessRule → Option String
  | .mk t _ _ _ _ _ => t

/-- Field accessor for the `rate_percent` key. -/
def CessRule.rate_percent : CessRule → Option Rat
  | .mk _ rp _ _ _ _ => rp

/-- Field accessor for the `unit_count` key. -/
def CessRule.unit_count : CessRule → Option Rat
  | .mk _ _ uc _ _ _ => uc

/-- Field accessor for the `fixed_rate` key. -/
def CessRule.fixed_rate : CessRule → Option Rat
  | .mk _ _ _ fr _ _ => fr

/-- Field accessor for the `rate_per_tonne` key. -/
def CessRule.rate_per_tonne : CessRule → Option Rat
  | .mk _ _ _ _ rpt _ => rpt

/-- Field accessor for the `options` key. -/
def CessRule.options : CessRule → Option (List CessRule)
  | .mk _ _ _ _ _ o => o

/-- Subscript access `rule[key]`: raises `KeyError` when the key is
absent. -/
def getKey {α : Type} : Option α → Except PyErr α
  | some v => .ok v
  | none => .error .keyError

/-- Python multiplication `a * b` where the left operand may be `None`:
raises `TypeError` on `None`. -/
def pyMul (a : Option Rat) (b : Rat) : Except PyErr Rat :=
  match a with
  | some x => .ok (x * b)
  | none => .error .typeError

/-- Python division `a / b` where the left operand may be `None`: the
interpreter checks operand types first (`TypeError` on `None`), then
raises `ZeroDivisionError` when the divisor is zero. -/
def pyDiv (a : Option Rat) (b : Rat) : Except PyErr Rat :=
  match a with
  | none => .error .typeError
  | some x => if b = 0 then .error .zeroDivisionError else .ok (x / b)

/-- Loop of the `higher_of` branch: `for opt in` the `options` list. The
source ignores the loop variable `opt` and recomputes the same
`CompensationCessEngine().calculate_cess(hsn, ...)` call every
iteration, so the (identical) iteration result is passed in as `sub`;
an error in `sub` (a `RecursionError` escaping the callee) aborts the
loop, otherwise `best = max(best, sub_amt)` accumulates. -/
def hoLoop (sub : Except PyErr Rat) : List CessRule → Rat → Except PyErr Rat
  | [], best => .ok best
  | _ :: rest, best =>
    match sub with
    | .error e => .error e
    | .ok s => hoLoop sub rest (max best s)

/-- Body of the `try:` block of `CompensationCessEngine.calculate_cess`
(lines 65-95 of `tax_engine.py`): rule lookup, the five-way dispatch on
`rule.get` applied to the key `type`, and the unknown-kind fallthrough that returns `0.0`.
`rules` is the rule store of the engine (`self.rules.get`, memoized by
`_get_rule`); `fuel` is the remaining Python stack headroom. The
recursive call in the `higher_of` branch re-enters the full public
method (a fresh engine over the same rule file), so it is the catching
`calculate_cess` that is re-invoked, with the same `hsn` and inputs. -/
def cessBody (fuel : Nat) (rules : String → Option CessRule) (hsn : String)
    (transaction_value quantity weight_tonnes : Option Rat) : Except PyErr Rat :=
  match rules hsn with
  | none => .ok 0
  | some rule =>
    if rule.rtype = some "ad_valorem" then do
      let rp ← getKey rule.rate_percent
      pyMul transaction_value (rp / 100)
    else if rule.rtype = some "fixed_per_unit" then do
      let uc ← getKey rule.unit_count
      let q ← pyDiv quantity uc
      let fr ← getKey rule.fixed_rate
      pure (q * fr)
    else if rule.rtype = some "per_weight" then do
      let rpt ← getKey rule.rate_per_tonne
      pyMul weight_tonnes rpt
    else if rule.rtype = some "combined" then do
      let rp ← getKey rule.rate_percent
      let ad ← pyMul transaction_value (rp / 100)
      let uc ← getKey rule.unit_count
      let q ← pyDiv quantity uc
      let fr ← getKey rule.fixed_rate
      pure (ad + q * fr)
    else if rule.rtype = some "higher_of" then do
      let opts ← getKey rule.options
      hoLoop
        (match fuel with
          | 0 => .error .recursionError
          | n + 1 =>
            .ok (match cessBody n rules hsn transaction_value quantity weight_tonnes with
              | .ok v => v
              | .error _ => 0))
        opts 0
    else
      .ok 0
termination_by fuel

/-- Public method `CompensationCessEngine.calculate_cess`: runs the
`try:` body and maps every escaping exception to `0.0` (the
`except Exception` handler at lines 97-99 of `tax_engine.py`). -/
def calculate_cess (fuel : Nat) (rules : String → Option CessRule) (hsn : String)
    (transaction_value quantity weight_tonnes : Option Rat) : Rat :=
  match cessBody fuel rules hsn transaction_value quantity weight_tonnes with
  | .ok v => v
  | .error _ => 0

/-- Method `GSTEngine.calculate_gst` (lines 108-121 of `tax_engine.py`):
interstate yields `(0, 0, value * rate/100)`, intrastate halves the
rate and yields `(cg, cg, 0)` with `cg = value * (rate/2)/100`. The
source wraps the body in `try/except`, but no numeric input can make
the body raise, so the handler is dead code and the model is a pure
function. -/
def calculate_gst (transaction_value : Rat) (gst_rate : Rat) (interstate : Bool) :
    Rat × Rat × Rat :=
  if interstate then
    (0, 0, transaction_value * (gst_rate / 100))
  else
    let half := gst_rate / 2
    let cg := transaction_value * (half / 100)
    (cg, cg, 0)

/-- Round-half-to-even to an integer, the rounding mode of the Python
built-in `round`. -/
def roundHalfEven (x : Rat) : Int :=
  if x - ⌊x⌋ < 1 / 2 then ⌊x⌋
  else if (1 : Rat) / 2 < x - ⌊x⌋ then ⌊x⌋ + 1
  else if ⌊x⌋ % 2 = 0 then ⌊x⌋ else ⌊x⌋ + 1

/-- Utility `round_amount` (line 22 of `tax_engine.py`): `round(x, 2)`,
rounding to currency precision (two decimal digits). -/
def round_amount (x : Rat) : Rat := (roundHalfEven (x * 100) : Rat) / 100

/-- Utility `convert_to_inr` (lines 26-35): a static FX table keyed by
the upper-cased currency code (`USD = 82.5`, `EUR = 90.0`); an unknown
code logs a warning and converts 1:1. -/
def convert_to_inr (amount : Rat) (currency : String) : Rat :=
  if currency.toUpper = "USD" then amount * (165 / 2)
  else if currency.toUpper = "EUR" then amount * 90
  else amount

/-- FormData models the `form_data` dict consumed by
`calculate_taxes_for_line`: `hsn` and `base_price` are accessed with
`[]` (required), the remaining keys with `.get` and a default, modelled
by `Option` plus `getD` at the use site. -/
structure FormData where
  hsn : String
  base_price : Rat
  qty_uom : Option Rat
  weight_grams : Option Rat
  gst_rate : Option Rat
  interstate : Option Bool
  currency : Option String
  category : Option String

/-- TaxLineResult is the result dict built at lines 178-189 of
`tax_engine.py`. -/
structure TaxLineResult where
  HSN : String
  Category : String
  AssessableValue : Rat
  Quantity : Rat
  WeightTonnes : Option Rat
  CGST : Rat
  SGST : Rat
  IGST : Rat
  CompensationCess : Rat
  TotalTax : Rat
deriving DecidableEq

/-- Main entry point `calculate_taxes_for_line` (lines 126-191):
extraction with defaults, currency normalization, grams-to-tonnes
conversion, GST computation and rounding, the `Custom`-category cess
skip, cess computation and rounding, and the total. `fuel` is the
Python stack headroom available to the cess engine; `rules` is the rule
store loaded by `CompensationCessEngine.__init__`. -/
def calculate_taxes_for_line (fuel : Nat) (rules : String → Option CessRule)
    (fd : FormData) : TaxLineResult :=
  let hsn := fd.hsn
  let category := fd.category.getD "Default"
  let value0 := fd.base_price
  let quantity := fd.qty_uom.getD 0
  let gst_rate := fd.gst_rate.getD 0
  let interstate := fd.interstate.getD false
  let currency := fd.currency.getD "INR"
  let assessable_value := if currency ≠ "INR" then convert_to_inr value0 currency else value0
  let weight_tonnes := fd.weight_grams.map (fun g => g / 1000000)
  let gst := calculate_gst assessable_value gst_rate interstate
  let cgst := round_amount gst.1
  let sgst := round_amount gst.2.1
  let igst := round_amount gst.2.2
  let cess :=
    if category ≠ "Custom" then
      round_amount (calculate_cess fuel rules hsn (some assessable_value)
        (some quantity) weight_tonnes)
    else 0
  let total_tax := round_amount (cgst + sgst + igst + cess)
  ⟨hsn, category, assessable_value, quantity, weight_tonnes, cgst, sgst, igst, cess, total_tax⟩


/-! Shared helper lemmas about rounding. -/

/-- Rounding half-to-even fixes every integer. -/
lemma roundHalfEven_intCast (n : ℤ) : roundHalfEven (n : ℚ) = n := by
  simp [roundHalfEven]

/-- Rounding to two decimals fixes every integer multiple of `1/100`. -/
lemma round_amount_int_div (n : ℤ) : round_amount ((n : ℚ) / 100) = (n : ℚ) / 100 := by
  have h : ((n : ℚ) / 100) * 100 = (n : ℚ) := by field_simp
  rw [round_amount, h, roundHalfEven_intCast]

/-- Rounding zero gives zero. -/
lemma round_amount_zero : round_amount 0 = 0 := by
  have h := round_amount_int_div 0
  simpa using h

/-- Every rounded amount is an integer multiple of `1/100`. -/
lemma round_amount_hundredth (x : ℚ) : ∃ n : ℤ, round_amount x = (n : ℚ) / 100 :=
  ⟨roundHalfEven (x * 100), rfl⟩

/-- A sum of three integer multiples of `1/100` is fixed by
`round_amount`. -/
lemma round_amount_sum3 {a b c : ℚ} (ha : ∃ i : ℤ, a = (i : ℚ) / 100)
    (hb : ∃ i : ℤ, b = (i : ℚ) / 100) (hc : ∃ i : ℤ, c = (i : ℚ) / 100) :
    round_amount (a + b + c) = a + b + c := by
  obtain ⟨i, rfl⟩ := ha
  obtain ⟨j, rfl⟩ := hb
  obtain ⟨k, rfl⟩ := hc
  have h : (i : ℚ) / 100 + (j : ℚ) / 100 + (k : ℚ) / 100 = ((i + j + k : ℤ) : ℚ) / 100 := by
    push_cast
    ring
  rw [h, round_amount_int_div]

/-! Claim theorems. -/

/-- C6: for every value ≥ 0 and rate ≥ 0 the GST splitter returns
`cgst = sgst = value*rate/200` and `igst = 0` when intrastate, and
`cgst = sgst = 0`, `igst = value*rate/100` when interstate. -/
theorem gst_split_formula (value rate : ℚ) (hv : 0 ≤ value) (hr : 0 ≤ rate) :
    calculate_gst value rate false = (value * rate / 200, value * rate / 200, 0) ∧
    calculate_gst value rate true = (0, 0, value * rate / 100) := by
  constructor
  · simp only [calculate_gst, Bool.false_eq_true, if_false, Prod.mk.injEq]
    refine ⟨by ring, by ring, trivial⟩
  · simp only [calculate_gst, if_true, Prod.mk.injEq]
    refine ⟨trivial, trivial, by ring⟩

/-- Witness for C6 at `value = 1000`, `rate = 18`. -/
theorem gst_split_formula_witness :
    (0 : ℚ) ≤ 1000 ∧ (0 : ℚ) ≤ 18 ∧ calculate_gst 1000 18 false = (90, 90, 0) ∧
      calculate_gst 1000 18 true = (0, 0, 180) := by
  have h := gst_split_formula 1000 18 (by norm_num) (by norm_num)
  refine ⟨by norm_num, by norm_num, ?_, ?_⟩
  · rw [h.1]
    norm_num
  · rw [h.2]
    norm_num

/-- C8, counterexample: a negative rate is not rejected; the splitter
computes a (negative) tax amount from it, so there is no `InvalidRate`
failure path in the code. -/
theorem gst_negative_rate_not_rejected : calculate_gst 1000 (-18) false = (-90, -90, 0) := by
  simp only [calculate_gst, Bool.false_eq_true, if_false, Prod.mk.injEq]
  refine ⟨by norm_num, by norm_num, trivial⟩

/-- C8, amended: the GST splitter is a total function with no failure
path for any numeric inputs whatsoever; a negative rate flows through
the same formula instead of being rejected. -/
theorem gst_total_function (value rate : ℚ) (interstate : Bool) :
    calculate_gst value rate interstate =
      if interstate then (0, 0, value * rate / 100)
      else (value * rate / 200, value * rate / 200, 0) := by
  cases interstate
  · simp only [calculate_gst, Bool.false_eq_true, if_false, Prod.mk.injEq]
    refine ⟨by ring, by ring, trivial⟩
  · simp only [calculate_gst, if_true, Prod.mk.injEq]
    refine ⟨trivial, trivial, by ring⟩

/-- C9: `calculate_taxes_for_line` is deterministic — over extensionally
equal rule stores, identical inputs yield identical results in every
field. -/
theorem compute_line_deterministic (fuel : Nat) (rules₁ rules₂ : String → Option CessRule)
    (fd₁ fd₂ : FormData) (hrules : ∀ code, rules₁ code = rules₂ code) (hfd : fd₁ = fd₂) :
    calculate_taxes_for_line fuel rules₁ fd₁ = calculate_taxes_for_line fuel rules₂ fd₂ := by
  subst hfd
  have h : rules₁ = rules₂ := funext hrules
  rw [h]

/-- Concrete rule store for the determinism witness. -/
def det_store : String → Option CessRule := fun h =>
  if h = "2701" then some (.mk (some "per_weight") none none none (some 400) none) else none

/-- Concrete form data for the determinism witness. -/
def det_fd : FormData :=
  ⟨"2701", 1000, some 0, some 2500000, some 18, some false, some "INR", some "Default"⟩

/-- Witness for C9 at a concrete store and input. -/
theorem compute_line_deterministic_witness :
    calculate_taxes_for_line 3 det_store det_fd = calculate_taxes_for_line 3 det_store det_fd :=
  compute_line_deterministic 3 det_store det_store det_fd det_fd (fun _ => rfl) rfl

/-- C10: `calculate_cess` is total at its public interface — every
internal failure path (any exception raised inside the `try:` body) is
caught and mapped to the return value `0.0`. -/
theorem cess_error_to_zero (fuel : Nat) (rules : String → Option CessRule) (hsn : String)
    (tv q wt : Option Rat) (e : PyErr)
    (h : cessBody fuel rules hsn tv q wt = .error e) :
    calculate_cess fuel rules hsn tv q wt = 0 := by
  simp [calculate_cess, h]

/-- Concrete malformed rule store (a `per_weight` rule with no
`rate_per_tonne` key) for the C10 witness. -/
def malformed_store : String → Option CessRule := fun h =>
  if h = "M" then some (.mk (some "per_weight") none none none none none) else none

/-- Witness for C10: the malformed rule makes the body raise `KeyError`,
and the public method returns `0.0`. -/
theorem cess_error_to_zero_witness :
    cessBody 1 malformed_store "M" none none none = .error .keyError ∧
    calculate_cess 1 malformed_store "M" none none none = 0 := by
  have hbody : cessBody 1 malformed_store "M" none none none = .error .keyError := by
    simp [cessBody, malformed_store, CessRule.rtype, CessRule.rate_per_tonne, getKey, bind,
      Except.bind]
  exact ⟨hbody, cess_error_to_zero 1 malformed_store "M" none none none .keyError hbody⟩

/-- Concrete store for C2: a `fixed_per_unit` rule whose `unit_count`
is `0`. -/
def div_zero_store : String → Option CessRule := fun h =>
  if h = "24022010" then some (.mk (some "fixed_per_unit") none (some 0) (some 5) none none)
  else none

/-- C2, counterexample: with `unit_count = 0` and quantity `5`, the body
does raise `ZeroDivisionError`, but the public `calculate_cess` swallows
it and hands the caller the silent numeric result `0.0` — exactly what
the claim says never happens. -/
theorem fixed_per_unit_div_zero_silent :
    cessBody 1 div_zero_store "24022010" (some 100) (some 5) none = .error .zeroDivisionError ∧
    calculate_cess 1 div_zero_store "24022010" (some 100) (some 5) none = 0 := by
  have hbody : cessBody 1 div_zero_store "24022010" (some 100) (some 5) none =
      .error .zeroDivisionError := by
    simp [cessBody, div_zero_store, CessRule.rtype, CessRule.unit_count, getKey, pyDiv, bind,
      Except.bind]
  exact ⟨hbody, by simp [calculate_cess, hbody]⟩

/-- C2, amended: for every `fixed_per_unit` rule with `unit_count = 0`
and any present quantity, the formula evaluation fails internally with
`ZeroDivisionError`, and `calculate_cess` catches it and returns `0.0`
to the caller (never Infinity or NaN, but also never an error). -/
theorem fixed_per_unit_div_zero_caught (fuel : Nat) (rules : String → Option CessRule)
    (hsn : String) (r : CessRule) (tv wt : Option Rat) (q : ℚ)
    (hr : rules hsn = some r) (ht : r.rtype = some "fixed_per_unit")
    (hu : r.unit_count = some 0) :
    cessBody fuel rules hsn tv (some q) wt = .error .zeroDivisionError ∧
    calculate_cess fuel rules hsn tv (some q) wt = 0 := by
  have hbody : cessBody fuel rules hsn tv (some q) wt = .error .zeroDivisionError := by
    cases fuel <;> simp [cessBody, hr, ht, hu, getKey, pyDiv, bind, Except.bind]
  exact ⟨hbody, by simp [calculate_cess, hbody]⟩

/-- Witness for C2 at the concrete store. -/
theorem fixed_per_unit_div_zero_caught_witness :
    cessBody 2 div_zero_store "24022010" (some 1000) (some 7) none = .error .zeroDivisionError ∧
    calculate_cess 2 div_zero_store "24022010" (some 1000) (some 7) none = 0 :=
  fixed_per_unit_div_zero_caught 2 div_zero_store "24022010"
    (.mk (some "fixed_per_unit") none (some 0) (some 5) none none) (some 1000) none 7
    (by simp [div_zero_store]) rfl rfl

/-- Concrete store for C3: a `per_weight` rule at 400 per tonne. -/
def per_weight_store : String → Option CessRule := fun h =>
  if h = "2701" then some (.mk (some "per_weight") none none none (some 400) none) else none

/-- C3, counterexample: evaluating the `per_weight` rule with the weight
absent returns the silent zero the claim rules out, and the internal
failure is an untyped `TypeError`, not a `MissingInput` error. -/
theorem per_weight_missing_weight_silent :
    calculate_cess 1 per_weight_store "2701" (some 1000) (some 0) none = 0 ∧
    cessBody 1 per_weight_store "2701" (some 1000) (some 0) none = .error .typeError := by
  have hbody : cessBody 1 per_weight_store "2701" (some 1000) (some 0) none =
      .error .typeError := by
    simp [cessBody, per_weight_store, CessRule.rtype, CessRule.rate_per_tonne, getKey, pyMul,
      bind, Except.bind]
  exact ⟨by simp [calculate_cess, hbody], hbody⟩

/-- C3, amended: for every `per_weight` rule, an absent weight makes the
multiplication raise `TypeError` internally and `calculate_cess`
catches it and returns `0.0` (there is no `MissingInput` error); with
the weight present the result is `weightTonnes * ratePerTonne`. -/
theorem per_weight_evaluation (fuel : Nat) (rules : String → Option CessRule) (hsn : String)
    (r : CessRule) (tv q : Option Rat) (rpt : ℚ)
    (hr : rules hsn = some r) (ht : r.rtype = some "per_weight")
    (hp : r.rate_per_tonne = some rpt) :
    (cessBody fuel rules hsn tv q none = .error .typeError ∧
      calculate_cess fuel rules hsn tv q none = 0) ∧
    ∀ w : ℚ, calculate_cess fuel rules hsn tv q (some w) = w * rpt := by
  have hbody : cessBody fuel rules hsn tv q none = .error .typeError := by
    cases fuel <;> simp [cessBody, hr, ht, hp, getKey, pyMul, bind, Except.bind]
  refine ⟨⟨hbody, by simp [calculate_cess, hbody]⟩, ?_⟩
  intro w
  have hok : cessBody fuel rules hsn tv q (some w) = .ok (w * rpt) := by
    cases fuel <;> simp [cessBody, hr, ht, hp, getKey, pyMul, bind, Except.bind]
  simp [calculate_cess, hok]

/-- Witness for C3 at the concrete store, with weight `5/2` tonnes. -/
theorem per_weight_evaluation_witness :
    (cessBody 1 per_weight_store "2701" (some 1000) (some 0) none = .error .typeError ∧
      calculate_cess 1 per_weight_store "2701" (some 1000) (some 0) none = 0) ∧
    calculate_cess 1 per_weight_store "2701" (some 1000) (some 0) (some (5 / 2)) =
      (5 / 2 : ℚ) * 400 := by
  have h := per_weight_evaluation 1 per_weight_store "2701"
    (.mk (some "per_weight") none none none (some 400) none) (some 1000) (some 0) 400
    (by simp [per_weight_store]) rfl rfl
  exact ⟨h.1, h.2 (5 / 2)⟩

/-- Concrete store for C4: a rule whose kind is the unknown string
`exotic`. -/
def unknown_kind_store : String → Option CessRule := fun h =>
  if h = "U" then some (.mk (some "exotic") none none none none none) else none

/-- C4, counterexample: on a rule with unknown kind `exotic`, the body
returns `0.0` without raising (`Except.ok 0`), and the caller receives
zero cess — no error is reported. -/
theorem unknown_kind_not_reported :
    cessBody 1 unknown_kind_store "U" (some 1000) (some 1) none = .ok 0 ∧
    calculate_cess 1 unknown_kind_store "U" (some 1000) (some 1) none = 0 := by
  have hbody : cessBody 1 unknown_kind_store "U" (some 1000) (some 1) none = .ok 0 := by
    simp [cessBody, unknown_kind_store, CessRule.rtype]
  exact ⟨hbody, by simp [calculate_cess, hbody]⟩

/-- C4, amended: for every rule whose kind is none of the five known
kinds, the engine logs and falls through to `return 0.0` — the caller
receives zero cess, not an error. -/
theorem unknown_kind_silent_zero (fuel : Nat) (rules : String → Option CessRule) (hsn : String)
    (r : CessRule) (tv q wt : Option Rat)
    (hr : rules hsn = some r)
    (h1 : r.rtype ≠ some "ad_valorem") (h2 : r.rtype ≠ some "fixed_per_unit")
    (h3 : r.rtype ≠ some "per_weight") (h4 : r.rtype ≠ some "combined")
    (h5 : r.rtype ≠ some "higher_of") :
    cessBody fuel rules hsn tv q wt = .ok 0 ∧ calculate_cess fuel rules hsn tv q wt = 0 := by
  have hbody : cessBody fuel rules hsn tv q wt = .ok 0 := by
    cases fuel <;> simp [cessBody, hr, h1, h2, h3, h4, h5]
  exact ⟨hbody, by simp [calculate_cess, hbody]⟩

/-- Witness for C4 at the concrete `exotic` rule. -/
theorem unknown_kind_silent_zero_witness :
    cessBody 3 unknown_kind_store "U" (some 500) (some 2) (some 1) = .ok 0 ∧
    calculate_cess 3 unknown_kind_store "U" (some 500) (some 2) (some 1) = 0 :=
  unknown_kind_silent_zero 3 unknown_kind_store "U" (.mk (some "exotic") none none none none none)
    (some 500) (some 2) (some 1) (by simp [unknown_kind_store])
    (by simp [CessRule.rtype]) (by simp [CessRule.rtype]) (by simp [CessRule.rtype])
    (by simp [CessRule.rtype]) (by simp [CessRule.rtype])

/-- Concrete store for C1: a `higher_of` rule with two named
`ad_valorem` sub-options (60% and 12%). -/
def higher_of_store : String → Option CessRule := fun h =>
  if h = "21069099" then
    some (.mk (some "higher_of") none none none none
      (some [.mk (some "ad_valorem") (some 60) none none none none,
             .mk (some "ad_valorem") (some 12) none none none none]))
  else none

/-- Store exposing the first sub-option of the C1 rule on its own. -/
def optionA_store : String → Option CessRule := fun h =>
  if h = "A" then some (.mk (some "ad_valorem") (some 60) none none none none) else none

/-- Store exposing the second sub-option of the C1 rule on its own. -/
def optionB_store : String → Option CessRule := fun h =>
  if h = "B" then some (.mk (some "ad_valorem") (some 12) none none none none) else none

/-- C1: the `higher_of` handler never evaluates its sub-options — it
recursively re-evaluates the whole rule, so whatever stack headroom is
available the result degrades to `0.0`, while the two sub-options
evaluated individually against the same inputs yield `600` and `120`
(so the intended maximum is `600`, and `0 ≠ 600`). -/
theorem higher_of_ignores_options :
    (∀ fuel, calculate_cess fuel higher_of_store "21069099" (some 1000) (some 1) none = 0) ∧
    calculate_cess 1 optionA_store "A" (some 1000) (some 1) none = 600 ∧
    calculate_cess 1 optionB_store "B" (some 1000) (some 1) none = 120 := by
  refine ⟨?_, ?_, ?_⟩
  · intro fuel
    induction fuel with
    | zero =>
        simp [calculate_cess, cessBody, higher_of_store, CessRule.rtype, CessRule.options,
          getKey, hoLoop, bind, Except.bind]
    | succ n ih =>
        simp only [calculate_cess] at ih
        simp [calculate_cess, cessBody, higher_of_store, CessRule.rtype, CessRule.options,
          getKey, hoLoop, bind, Except.bind, ih]
  · simp [calculate_cess, cessBody, optionA_store, CessRule.rtype, CessRule.rate_percent,
      getKey, pyMul, bind, Except.bind]
    norm_num
  · simp [calculate_cess, cessBody, optionB_store, CessRule.rtype, CessRule.rate_percent,
      getKey, pyMul, bind, Except.bind]
    norm_num

/-- C5: when the rule store has no rule for the classification code,
`calculate_cess` never raises and returns `0.0` for any inputs, the
orchestrator records `CompensationCess = 0`, and `TotalTax` is exactly
the sum of the three GST components. -/
theorem rule_not_found_zero (fuel : Nat) (rules : String → Option CessRule) (fd : FormData)
    (h : rules fd.hsn = none) :
    (∀ tv q wt, calculate_cess fuel rules fd.hsn tv q wt = 0) ∧
    (calculate_taxes_for_line fuel rules fd).CompensationCess = 0 ∧
    (calculate_taxes_for_line fuel rules fd).TotalTax =
      (calculate_taxes_for_line fuel rules fd).CGST +
        (calculate_taxes_for_line fuel rules fd).SGST +
        (calculate_taxes_for_line fuel rules fd).IGST := by
  have hcess : ∀ tv q wt, calculate_cess fuel rules fd.hsn tv q wt = 0 := by
    intro tv q wt
    have hb : cessBody fuel rules fd.hsn tv q wt = .ok 0 := by
      cases fuel <;> simp [cessBody, h]
    simp [calculate_cess, hb]
  refine ⟨hcess, ?_, ?_⟩
  · simp [calculate_taxes_for_line, hcess, round_amount_zero]
  · simp [calculate_taxes_for_line, hcess, round_amount_zero]
    exact round_amount_sum3 (round_amount_hundredth _) (round_amount_hundredth _)
      (round_amount_hundredth _)

/-- Empty rule store for the C5 witness. -/
def empty_store : String → Option CessRule := fun _ => none

/-- Form data with an unmapped classification code for the C5 witness. -/
def missing_fd : FormData :=
  ⟨"99999999", 1000, some 1, none, some 18, some false, some "INR", some "Default"⟩

/-- Witness for C5: code `99999999` has no rule; cess is `0.0` and the
total equals the GST sum, concretely `180.0`. -/
theorem rule_not_found_zero_witness :
    calculate_cess 1 empty_store "99999999" (some 1000) (some 1) none = 0 ∧
    (calculate_taxes_for_line 1 empty_store missing_fd).CompensationCess = 0 ∧
    (calculate_taxes_for_line 1 empty_store missing_fd).TotalTax =
      (calculate_taxes_for_line 1 empty_store missing_fd).CGST +
        (calculate_taxes_for_line 1 empty_store missing_fd).SGST +
        (calculate_taxes_for_line 1 empty_store missing_fd).IGST ∧
    (calculate_taxes_for_line 1 empty_store missing_fd).TotalTax = 180 := by
  have h := rule_not_found_zero 1 empty_store missing_fd rfl
  refine ⟨h.1 (some 1000) (some 1) none, h.2.1, h.2.2, ?_⟩
  simp [calculate_taxes_for_line, missing_fd, empty_store, calculate_gst, calculate_cess,
    cessBody]
  norm_num [round_amount, roundHalfEven]

/-- C7: whenever the category is the literal `Custom`, the orchestrator
skips cess entirely — `CompensationCess = 0` and `TotalTax` is the sum
of the rounded GST components — regardless of the rule store. -/
theorem custom_category_skips_cess (fuel : Nat) (rules : String → Option CessRule)
    (fd : FormData) (h : fd.category = some "Custom") :
    (calculate_taxes_for_line fuel rules fd).CompensationCess = 0 ∧
    (calculate_taxes_for_line fuel rules fd).TotalTax =
      (calculate_taxes_for_line fuel rules fd).CGST +
        (calculate_taxes_for_line fuel rules fd).SGST +
        (calculate_taxes_for_line fuel rules fd).IGST := by
  constructor
  · simp [calculate_taxes_for_line, h]
  · simp [calculate_taxes_for_line, h]
    exact round_amount_sum3 (round_amount_hundredth _) (round_amount_hundredth _)
      (round_amount_hundredth _)

/-- Store used by the C7 witness: the code does map to a 60% ad-valorem
rule, which must be ignored because the category is `Custom`. -/
def custom_store : String → Option CessRule := fun h =>
  if h = "21069020" then some (.mk (some "ad_valorem") (some 60) none none none none) else none

/-- Form data with category `Custom` for the C7 witness. -/
def custom_fd : FormData :=
  ⟨"21069020", 2000, some 0, none, some 18, some false, some "INR", some "Custom"⟩

/-- Witness for C7 at value 2000, rate 18%, intrastate: cess is skipped
and the total is `360.0` even though a 60% rule exists for the code. -/
theorem custom_category_skips_cess_witness :
    custom_fd.category = some "Custom" ∧
    (calculate_taxes_for_line 5 custom_store custom_fd).CompensationCess = 0 ∧
    (calculate_taxes_for_line 5 custom_store custom_fd).TotalTax = 360 := by
  have h := custom_category_skips_cess 5 custom_store custom_fd rfl
  refine ⟨rfl, h.1, ?_⟩
  simp [calculate_taxes_for_line, custom_fd, custom_store, calculate_gst]
  norm_num [round_amount, roundHalfEven]

end TaxEngine
